import Mathlib

/-!
Verification development for the voxface defacing pipeline
(`src/voxface/__main__.py`).

The repository code is a thin orchestration over the external ANTs
library: it loads a faced structural image, a template and a face mask,
registers the template to the image, warps the mask, voxelates the image
by a B-spline downsample followed by a nearest-neighbour upsample, and
composites original and voxelated images through the warped mask.

Volumes are embedded with rational spacing/origin/direction (the Python
code uses floating point; none of the verified properties hinge on
floating-point rounding) and total intensity functions on voxel indices.
Operations implemented inside the repository (the composite arithmetic of
line 169, the downsampled matrix sizes of lines 143-145, the backup
filename of line 76, the write order of lines 174-179, the verbose
gating) are translated directly from the source.  The ANTs routines
`ants.registration`, `ants.apply_transforms` and `ants.resample_image`
are not part of this repository; they are modelled from the
specification (sections 4.1-4.3) where a claim depends on their
behaviour, and such modelling is flagged on each definition.
-/

namespace Voxface

/-- A 3-vector of rationals (physical coordinates, spacings, origins). -/
abbrev Vec3 := ℚ × ℚ × ℚ

/-- A 3x3 matrix of rationals, stored as three rows (direction matrices). -/
abbrev Mat3 := Vec3 × Vec3 × Vec3

/-- Componentwise sum of two 3-vectors. -/
def vadd (a b : Vec3) : Vec3 := (a.1 + b.1, a.2.1 + b.2.1, a.2.2 + b.2.2)

/-- Componentwise difference of two 3-vectors. -/
def vsub (a b : Vec3) : Vec3 := (a.1 - b.1, a.2.1 - b.2.1, a.2.2 - b.2.2)

/-- Componentwise (Hadamard) product of two 3-vectors. -/
def vmul (a b : Vec3) : Vec3 := (a.1 * b.1, a.2.1 * b.2.1, a.2.2 * b.2.2)

/-- Componentwise quotient of two 3-vectors (rational division). -/
def vdiv (a b : Vec3) : Vec3 := (a.1 / b.1, a.2.1 / b.2.1, a.2.2 / b.2.2)

/-- Matrix-vector product for a row-stored 3x3 matrix. -/
def matVec (m : Mat3) (v : Vec3) : Vec3 :=
  (m.1.1 * v.1 + m.1.2.1 * v.2.1 + m.1.2.2 * v.2.2,
   m.2.1.1 * v.1 + m.2.1.2.1 * v.2.1 + m.2.1.2.2 * v.2.2,
   m.2.2.1 * v.1 + m.2.2.2.1 * v.2.1 + m.2.2.2.2 * v.2.2)

/-- Determinant of a row-stored 3x3 matrix. -/
def mat3Det (m : Mat3) : ℚ :=
  m.1.1 * (m.2.1.2.1 * m.2.2.2.2 - m.2.1.2.2 * m.2.2.2.1)
    - m.1.2.1 * (m.2.1.1 * m.2.2.2.2 - m.2.1.2.2 * m.2.2.1)
    + m.1.2.2 * (m.2.1.1 * m.2.2.2.1 - m.2.1.2.1 * m.2.2.1)

/-- Inverse of a row-stored 3x3 matrix via the adjugate; division by a
zero determinant yields the rational convention `x / 0 = 0` and is never
relied upon (valid direction matrices are invertible). -/
def mat3Inv (m : Mat3) : Mat3 :=
  let d := mat3Det m
  (((m.2.1.2.1 * m.2.2.2.2 - m.2.1.2.2 * m.2.2.2.1) / d,
    (m.1.2.2 * m.2.2.2.1 - m.1.2.1 * m.2.2.2.2) / d,
    (m.1.2.1 * m.2.1.2.2 - m.1.2.2 * m.2.1.2.1) / d),
   ((m.2.1.2.2 * m.2.2.1 - m.2.1.1 * m.2.2.2.2) / d,
    (m.1.1 * m.2.2.2.2 - m.1.2.2 * m.2.2.1) / d,
    (m.1.2.2 * m.2.1.1 - m.1.1 * m.2.1.2.2) / d),
   ((m.2.1.1 * m.2.2.2.1 - m.2.1.2.1 * m.2.2.1) / d,
    (m.1.2.1 * m.2.2.1 - m.1.1 * m.2.2.2.1) / d,
    (m.1.1 * m.2.1.2.1 - m.1.2.1 * m.2.1.1) / d))

/-- The identity 3x3 matrix. -/
def mat3Id : Mat3 := ((1, 0, 0), (0, 1, 0), (0, 0, 1))

/-- Grid geometry of a volume: matrix dimensions, voxel spacing (mm),
physical origin and 3x3 direction matrix, exactly the metadata an
AntsImage carries. -/
structure Grid where
  dims : ℕ × ℕ × ℕ
  spacing : Vec3
  origin : Vec3
  direction : Mat3
  deriving DecidableEq

/-- An in-memory 3-D scalar image: grid geometry plus a total intensity
function on voxel indices (indices outside `dims` are never observed by
the pipeline). -/
structure Volume where
  grid : Grid
  data : ℕ → ℕ → ℕ → ℚ

/-- Physical coordinate of a voxel index on a grid:
`physical = origin + direction * (index * spacing)` (spec section 3). -/
def physOfIndex (g : Grid) (i j k : ℕ) : Vec3 :=
  vadd g.origin (matVec g.direction (vmul ((i : ℚ), (j : ℚ), (k : ℚ)) g.spacing))

/-- Continuous voxel index of a physical point on a grid: the inverse of
`physOfIndex`, `index = (direction^-1 * (p - origin)) / spacing`. -/
def contIndexOf (g : Grid) (p : Vec3) : Vec3 :=
  vdiv (matVec (mat3Inv g.direction) (vsub p g.origin)) g.spacing

/-- An affine physical-to-physical transform: linear part plus
translation. -/
structure AffineTransform where
  linear : Mat3
  translation : Vec3
  deriving DecidableEq

/-- Apply an affine transform to a physical point. -/
def applyAffine (t : AffineTransform) (p : Vec3) : Vec3 :=
  vadd (matVec t.linear p) t.translation

/-- The identity affine transform. -/
def idTransform : AffineTransform := ⟨mat3Id, (0, 0, 0)⟩

/-- Round a rational to the nearest integer, halves away from zero
toward positive infinity (`floor (q + 1/2)`): the tie behaviour is never
exercised by the nearest-neighbour sampling claims. -/
def roundNearest (q : ℚ) : ℤ := ⌊q + 1 / 2⌋

/-- numpy `np.round`: round to the nearest integer, ties to even. -/
def npRound (q : ℚ) : ℤ :=
  let f := ⌊q⌋
  let r := q - (f : ℚ)
  if r < 1 / 2 then f
  else if 1 / 2 < r then f + 1
  else if 2 ∣ f then f else f + 1

/-- Whether a rounded continuous index lies inside a grid of the given
dimensions. -/
def inBounds (d : ℕ × ℕ × ℕ) (a b c : ℤ) : Prop :=
  0 ≤ a ∧ a < (d.1 : ℤ) ∧ 0 ≤ b ∧ b < (d.2.1 : ℤ) ∧ 0 ≤ c ∧ c < (d.2.2 : ℤ)

instance (d : ℕ × ℕ × ℕ) (a b c : ℤ) : Decidable (inBounds d a b c) := by
  unfold inBounds; infer_instance

/-- Modelled from the spec: nearest-neighbour resampling
(`ants.apply_transforms` with the nearestNeighbor interpolator, spec
section 4.2 — not part of this repository).  For each output voxel, the
physical coordinate on the target grid is mapped backward through the
transform into source physical space, the continuous source index is
rounded to the closest source voxel, and the source intensity there is
returned; coordinates falling outside the source extent are filled with
the background value 0. -/
def nnResample (src : Volume) (target : Grid) (t : AffineTransform) : Volume where
  grid := target
  data := fun i j k =>
    let p := applyAffine t (physOfIndex target i j k)
    let c := contIndexOf src.grid p
    let a := roundNearest c.1
    let b := roundNearest c.2.1
    let d := roundNearest c.2.2
    if inBounds src.grid.dims a b d then src.data a.toNat b.toNat d.toNat else 0

/-- Voxelwise product of two AntsImages (`*` on AntsImage operands); the
result carries the grid of the left operand, as ANTs arithmetic keeps
the physical space of its inputs (which must agree). -/
def imageMul (a b : Volume) : Volume where
  grid := a.grid
  data := fun i j k => a.data i j k * b.data i j k

/-- Voxelwise sum of two AntsImages (`+` on AntsImage operands). -/
def imageAdd (a b : Volume) : Volume where
  grid := a.grid
  data := fun i j k => a.data i j k + b.data i j k

/-- Voxelwise difference of two AntsImages (`-` on AntsImage operands). -/
def imageSub (a b : Volume) : Volume where
  grid := a.grid
  data := fun i j k => a.data i j k - b.data i j k

/-- The all-ones image of line 168,
`faced_ai.new_image_like(np.ones(faced_ai.shape))`: a volume of ones on
the same grid as its argument. -/
def onesLike (a : Volume) : Volume where
  grid := a.grid
  data := fun _ _ _ => 1

/-- The compositing arithmetic of line 169:
`voxfaced_ai = faced_ai * ind_facemask_ai + voxed_ai * (ones_ai - ind_facemask_ai)`
with `ones_ai = faced_ai.new_image_like(np.ones(faced_ai.shape))`. -/
def voxfaceComposite (faced voxed mask : Volume) : Volume :=
  imageAdd (imageMul faced mask) (imageMul voxed (imageSub (onesLike faced) mask))

/-- Downsampled matrix size along one axis (lines 143-145):
`np.round(n * v / voxdim).astype(int)`, with no clamping. -/
def dwnDim (n : ℕ) (v voxdim : ℚ) : ℤ := npRound ((n : ℚ) * v / voxdim)

/-- The downsampled matrix size triple `(nx_dwn, ny_dwn, nz_dwn)` of
lines 143-145, computed from the shape and spacing of the faced image;
`Int.toNat` reflects that the sizes are handed to ANTs as nonnegative
voxel counts (they are nonnegative whenever spacing and voxdim are). -/
def dwnDims (g : Grid) (voxdim : ℚ) : ℕ × ℕ × ℕ :=
  ((dwnDim g.dims.1 g.spacing.1 voxdim).toNat,
   (dwnDim g.dims.2.1 g.spacing.2.1 voxdim).toNat,
   (dwnDim g.dims.2.2 g.spacing.2.2 voxdim).toNat)

/-- Interpolators selected by the pipeline (`interp_type=4` is B-spline,
`interp_type=1` is nearest neighbour). -/
inductive InterpKind where
  | nearestNeighbor
  | bspline
  deriving DecidableEq

/-- Modelled from the spec: the grid produced by `ants.resample_image`
with `use_voxels=True` (not part of this repository) — the requested
matrix size over the same physical extent as the source, so spacing
scales by `oldDim / newDim` per axis, with origin and direction kept. -/
def resampleGrid (g : Grid) (d : ℕ × ℕ × ℕ) : Grid where
  dims := d
  spacing := ((g.dims.1 : ℚ) * g.spacing.1 / (d.1 : ℚ),
              (g.dims.2.1 : ℚ) * g.spacing.2.1 / (d.2.1 : ℚ),
              (g.dims.2.2 : ℚ) * g.spacing.2.2 / (d.2.2 : ℚ))
  origin := g.origin
  direction := g.direction

/-- A cubic B-spline sampling kernel: the numerical interpolation scheme
of `ants.resample_image` with `interp_type=4`.  The spline arithmetic
of the external library is not reimplemented; the pipeline is verified for
every kernel, i.e. the claims below hold however the spline interpolates
intensities. -/
abbrev SplineKernel := Volume → Grid → ℕ → ℕ → ℕ → ℚ

/-- Modelled from the spec: `ants.resample_image(image, params,
use_voxels=True, interp_type=...)` (spec sections 4.2-4.3 — not part of
this repository).  The output lives on the requested grid over the same
physical extent; nearest-neighbour sampling is the fully modelled
`nnResample` with no geometric transform, and B-spline intensities come
from the abstract kernel `K`. -/
def resampleImage (K : SplineKernel) (img : Volume) (d : ℕ × ℕ × ℕ)
    (interp : InterpKind) : Volume :=
  let tg := resampleGrid img.grid d
  match interp with
  | .nearestNeighbor => nnResample img tg idTransform
  | .bspline => { grid := tg, data := K img tg }

/-- Pipeline error taxonomy (spec section 7). -/
inductive PipelineError where
  | invalidInputGeometry
  | registrationDivergence
  deriving DecidableEq

/-- Valid spacing: strictly positive in every axis (spec section 4.1). -/
def validSpacing (g : Grid) : Prop :=
  0 < g.spacing.1 ∧ 0 < g.spacing.2.1 ∧ 0 < g.spacing.2.2

instance (g : Grid) : Decidable (validSpacing g) := by
  unfold validSpacing; infer_instance

/-- An abstract affine optimizer: from fixed and moving volumes it
produces a converged transform together with the number of optimization
iterations it ran.  This stands for the numerical core of
`ants.registration`, which is external; the claims hold for every
optimizer. -/
abbrev Optimizer := Volume → Volume → AffineTransform × ℕ

/-- Modelled from the spec: `ants.registration(fixed, moving,
type_of_transform=AffineFast)` (spec section 4.1 — not part of this
repository).  Input geometry is validated before any optimization
iteration runs: volumes without strictly positive spacing in every axis
fail with `InvalidInputGeometry` and an iteration count of zero;
otherwise the optimizer runs and its transform is returned. -/
def registrationRun (opt : Optimizer) (fixed moving : Volume) :
    Except PipelineError AffineTransform × ℕ :=
  if validSpacing fixed.grid ∧ validSpacing moving.grid then
    (Except.ok (opt fixed moving).1, (opt fixed moving).2)
  else
    (Except.error PipelineError.invalidInputGeometry, 0)

/-- Python `str.replace(old, new)` on character lists: replace every
non-overlapping occurrence of `pat` left to right; a string without an
occurrence is returned unchanged.  The empty-pattern case (which Python
treats specially) is excluded from the replacing branch so the recursion
terminates; the pipeline only ever replaces the literal `.nii.gz`. -/
def pyReplace (pat rep : List Char) (s : List Char) : List Char :=
  match s with
  | [] => []
  | c :: rest =>
    if h : pat ≠ [] ∧ pat.isPrefixOf (c :: rest) = true then
      rep ++ pyReplace pat rep ((c :: rest).drop pat.length)
    else
      c :: pyReplace pat rep rest
termination_by s.length
decreasing_by
  · have hp : 1 ≤ pat.length := List.length_pos.mpr h.1
    simp only [List.length_drop, List.length_cons]
    omega
  · simp only [List.length_cons]
    omega

/-- Whether `pat` occurs as a contiguous substring of `s` (Python
`pat in s` for nonempty `pat`). -/
def containsSub (pat : List Char) : List Char → Bool
  | [] => pat.isEmpty
  | c :: rest => pat.isPrefixOf (c :: rest) || containsSub pat rest

/-- The character list of the literal pattern `.nii.gz` of line 76. -/
def niiGzPat : List Char := ['.', 'n', 'i', 'i', '.', 'g', 'z']

/-- The character list of the literal replacement `_faced.nii.gz` of
line 76. -/
def facedRep : List Char :=
  ['_', 'f', 'a', 'c', 'e', 'd', '.', 'n', 'i', 'i', '.', 'g', 'z']

/-- The backup filename of line 76: the result of replacing `.nii.gz`
with `_faced.nii.gz` in the input filename (Python `in_fname.replace`). -/
def bakFname (f : List Char) : List Char := pyReplace niiGzPat facedRep f

/-- Observable events of one `main` run: progress logging, the external
library calls, and file writes (path together with the volume written). -/
inductive Event where
  | log (msg : ℕ)
  | regCall
  | applyTxCall
  | resampleCall (d : ℕ × ℕ × ℕ) (interp : InterpKind)
  | write (path : List Char) (v : Volume)

/-- A progress message printed only when `verbose` is set (`if
args.verbose: print(...)` throughout `main`); the message text is
abstracted to a numeric tag, one per print site in source order. -/
def vlog (verbose : Bool) (msg : ℕ) : List Event :=
  if verbose then [Event.log msg] else []

/-- The affine transform estimated at lines 117-121 (`affine_tx`),
produced by the abstract optimizer once geometry validation passed. -/
def voxfaceTransform (opt : Optimizer) (faced template : Volume) : AffineTransform :=
  (opt faced template).1

/-- The warped individual-space face mask of lines 127-132:
`ants.apply_transforms(fixed=faced_ai, moving=facemask_ai,
transformlist=affine_tx[fwdtransforms], interpolator=nearestNeighbor)`,
i.e. the mask resampled onto the grid of the faced image. -/
def indFacemask (opt : Optimizer) (faced template facemask : Volume) : Volume :=
  nnResample facemask faced.grid (voxfaceTransform opt faced template)

/-- The spline-downsampled faced image of lines 150-155 (`faced_spdwn_ai`):
resampled to the matrix size of lines 143-145 with `interp_type=4`. -/
def facedSpdwn (K : SplineKernel) (faced : Volume) (voxdim : ℚ) : Volume :=
  resampleImage K faced (dwnDims faced.grid voxdim) InterpKind.bspline

/-- The voxelated image of lines 160-165 (`voxed_ai`): the downsampled
image resampled back to the original matrix size with `interp_type=1`. -/
def voxedImage (K : SplineKernel) (faced : Volume) (voxdim : ℚ) : Volume :=
  resampleImage K (facedSpdwn K faced voxdim) faced.grid.dims InterpKind.nearestNeighbor

/-- The final defaced volume of lines 168-169 (`voxfaced_ai`). -/
def voxfacedImage (opt : Optimizer) (K : SplineKernel)
    (faced template facemask : Volume) (voxdim : ℚ) : Volume :=
  voxfaceComposite faced (voxedImage K faced voxdim)
    (indFacemask opt faced template facemask)

/-- The core of `main` (lines 88-183), from the point where the three
volumes are loaded: registration, mask warp, voxelation, compositing,
then the backup write and the in-place overwrite, with progress messages
gated on the verbose flag exactly as in the source.  Returns the result
of the run and its ordered event trace; a registration failure
propagates and nothing is written. -/
def runVoxface (opt : Optimizer) (K : SplineKernel)
    (faced template facemask : Volume) (voxdim : ℚ) (verbose : Bool)
    (inFname : List Char) : Except PipelineError Volume × List Event :=
  let pre :=
    vlog verbose 0
    ++ vlog verbose 1
    ++ vlog verbose 2
    ++ vlog verbose 3
    ++ vlog verbose 4
    ++ [Event.regCall]
  match (registrationRun opt faced template).1 with
  | Except.error e => (Except.error e, pre)
  | Except.ok _ =>
    let out := voxfacedImage opt K faced template facemask voxdim
    (Except.ok out,
      pre
      ++ vlog verbose 5
      ++ [Event.applyTxCall]
      ++ vlog verbose 6
      ++ [Event.resampleCall (dwnDims faced.grid voxdim) InterpKind.bspline]
      ++ vlog verbose 7
      ++ [Event.resampleCall faced.grid.dims InterpKind.nearestNeighbor]
      ++ vlog verbose 8
      ++ [Event.write (bakFname inFname) faced]
      ++ vlog verbose 9
      ++ [Event.write inFname out]
      ++ vlog verbose 10)

/-- The file writes of a trace, in order. -/
def writesOf : List Event → List (List Char × Volume)
  | [] => []
  | Event.write p v :: rest => (p, v) :: writesOf rest
  | Event.log _ :: rest => writesOf rest
  | Event.regCall :: rest => writesOf rest
  | Event.applyTxCall :: rest => writesOf rest
  | Event.resampleCall _ _ :: rest => writesOf rest

/-- Replay a list of writes over an initially empty file system: later
writes to a path overwrite earlier ones. -/
def applyWrites (ws : List (List Char × Volume)) (p : List Char) : Option Volume :=
  ws.foldl (fun acc w => if w.1 = p then some w.2 else acc) none

/-- An all-zeros volume on the same grid as its argument, the weight
used by the boundary-law test inputs of spec section 8. -/
def zerosLike (a : Volume) : Volume where
  grid := a.grid
  data := fun _ _ _ => 0

/-- Membership of a value in the original value set of a volume: the
value is attained at some in-bounds voxel. -/
def inValueSet (m : Volume) (x : ℚ) : Prop :=
  ∃ a b c, a < m.grid.dims.1 ∧ b < m.grid.dims.2.1 ∧ c < m.grid.dims.2.2 ∧
    m.data a b c = x

/-- Whether an event is a file write. -/
def isWriteEvent : Event → Bool
  | Event.write _ _ => true
  | _ => false

/-- Whether an event is one of the numerical library calls
(registration, mask warp, resampling) of the pipeline. -/
def isLibraryCall : Event → Bool
  | Event.regCall => true
  | Event.applyTxCall => true
  | Event.resampleCall _ _ => true
  | _ => false

theorem writesOf_append (a b : List Event) :
    writesOf (a ++ b) = writesOf a ++ writesOf b := by
  induction a with
  | nil => rfl
  | cons e rest ih => cases e <;> simp [writesOf, ih]

theorem writesOf_vlog (b : Bool) (n : ℕ) : writesOf (vlog b n) = [] := by
  cases b <;> simp [vlog, writesOf]

theorem pyReplace_of_not_contains (pat rep s : List Char)
    (h : containsSub pat s = false) : pyReplace pat rep s = s := by
  induction s with
  | nil => simp [pyReplace]
  | cons c rest ih =>
    rw [containsSub] at h
    simp only [Bool.or_eq_false_iff] at h
    rw [pyReplace, dif_neg]
    · rw [ih h.2]
    · rintro ⟨-, hp⟩
      rw [h.1] at hp
      exact Bool.false_ne_true hp

theorem runVoxface_writes (opt : Optimizer) (K : SplineKernel)
    (faced template facemask : Volume) (voxdim : ℚ) (verbose : Bool)
    (inFname : List Char) :
    writesOf (runVoxface opt K faced template facemask voxdim verbose inFname).2
      = if validSpacing faced.grid ∧ validSpacing template.grid then
          [(bakFname inFname, faced),
           (inFname, voxfacedImage opt K faced template facemask voxdim)]
        else [] := by
  by_cases h : validSpacing faced.grid ∧ validSpacing template.grid <;>
    simp only [runVoxface, registrationRun, h, if_true, if_false, ite_true,
      ite_false] <;>
    simp [writesOf_append, writesOf_vlog, writesOf]

theorem runVoxface_result (opt : Optimizer) (K : SplineKernel)
    (faced template facemask : Volume) (voxdim : ℚ) (verbose : Bool)
    (inFname : List Char) :
    (runVoxface opt K faced template facemask voxdim verbose inFname).1
      = if validSpacing faced.grid ∧ validSpacing template.grid then
          Except.ok (voxfacedImage opt K faced template facemask voxdim)
        else Except.error PipelineError.invalidInputGeometry := by
  by_cases h : validSpacing faced.grid ∧ validSpacing template.grid <;>
    simp [runVoxface, registrationRun, h]

theorem resampleGrid_roundtrip (g : Grid) (d : ℕ × ℕ × ℕ)
    (hd : 0 < d.1 ∧ 0 < d.2.1 ∧ 0 < d.2.2)
    (hn : 0 < g.dims.1 ∧ 0 < g.dims.2.1 ∧ 0 < g.dims.2.2) :
    resampleGrid (resampleGrid g d) g.dims = g := by
  obtain ⟨⟨n1, n2, n3⟩, ⟨v1, v2, v3⟩, o, dir⟩ := g
  obtain ⟨d1, d2, d3⟩ := d
  obtain ⟨hd1, hd2, hd3⟩ := hd
  obtain ⟨hn1, hn2, hn3⟩ := hn
  have e1 : ((d1 : ℚ)) ≠ 0 := Nat.cast_ne_zero.mpr hd1.ne'
  have e2 : ((d2 : ℚ)) ≠ 0 := Nat.cast_ne_zero.mpr hd2.ne'
  have e3 : ((d3 : ℚ)) ≠ 0 := Nat.cast_ne_zero.mpr hd3.ne'
  have f1 : ((n1 : ℚ)) ≠ 0 := Nat.cast_ne_zero.mpr hn1.ne'
  have f2 : ((n2 : ℚ)) ≠ 0 := Nat.cast_ne_zero.mpr hn2.ne'
  have f3 : ((n3 : ℚ)) ≠ 0 := Nat.cast_ne_zero.mpr hn3.ne'
  simp only [resampleGrid, Grid.mk.injEq]
  refine ⟨trivial, ?_, trivial, trivial⟩
  refine Prod.ext ?_ (Prod.ext ?_ ?_) <;> simp <;> field_simp

/-- A concrete 4x4x4 subject grid at 1 mm isotropic spacing. -/
def cGrid : Grid := ⟨(4, 4, 4), (1, 1, 1), (0, 0, 0), mat3Id⟩

/-- A concrete faced subject volume on `cGrid` with constant intensity 5. -/
def cFaced : Volume := ⟨cGrid, fun _ _ _ => 5⟩

/-- A concrete template volume at 2 mm spacing. -/
def cTemplate : Volume := ⟨⟨(2, 2, 2), (2, 2, 2), (0, 0, 0), mat3Id⟩, fun _ _ _ => 3⟩

/-- A concrete binary face mask on the template grid. -/
def cFacemask : Volume := ⟨⟨(2, 2, 2), (2, 2, 2), (0, 0, 0), mat3Id⟩, fun _ _ _ => 1⟩

/-- A concrete second volume on `cGrid` with constant intensity 7. -/
def cOther : Volume := ⟨cGrid, fun _ _ _ => 7⟩

/-- A concrete volume with zero spacing in the first axis. -/
def cZeroVol : Volume := ⟨⟨(2, 2, 2), (0, 1, 1), (0, 0, 0), mat3Id⟩, fun _ _ _ => 4⟩

/-- A concrete optimizer returning the identity transform after one
iteration. -/
def cOpt : Optimizer := fun _ _ => (idTransform, 1)

/-- A concrete spline kernel with constant intensity 2. -/
def cK : SplineKernel := fun _ _ _ _ _ => 2

/-- A concrete input filename without the `.nii.gz` suffix. -/
def cFname : List Char := ['a', '.', 'n', 'i', 'i']

/-- A concrete single-voxel mask with constant value 1 (its value set is
the singleton of 1). -/
def exMask : Volume := ⟨⟨(1, 1, 1), (1, 1, 1), (0, 0, 0), mat3Id⟩, fun _ _ _ => 1⟩

/-- A concrete single-voxel target grid whose origin lies far outside
the extent of `exMask`. -/
def exTarget : Grid := ⟨(1, 1, 1), (1, 1, 1), (10, 10, 10), mat3Id⟩

/-- A concrete single-voxel faced volume, small enough that voxelation
at 8 mm collapses the downsampled matrix size to zero. -/
def cSmallFaced : Volume := ⟨⟨(1, 1, 1), (1, 1, 1), (0, 0, 0), mat3Id⟩, fun _ _ _ => 5⟩

/-- The 176x256x256 subject grid at 1 mm spacing of the end-to-end
scenario in spec section 8. -/
def c8Grid : Grid := ⟨(176, 256, 256), (1, 1, 1), (0, 0, 0), mat3Id⟩

/-- C1: on equal grids, the composite of line 169 satisfies, at every
voxel, output = base * weight + replacement * (1 - weight); in the
pipeline the base is the faced subject volume, the replacement is the
voxelated volume and the weight is the warped face mask. -/
theorem composite_formula (base repl weight : Volume)
    (hw : weight.grid = base.grid) (hr : repl.grid = base.grid)
    (i j k : ℕ) (opt : Optimizer) (K : SplineKernel)
    (template facemask : Volume) (voxdim : ℚ) :
    (voxfaceComposite base repl weight).data i j k
      = base.data i j k * weight.data i j k
        + repl.data i j k * (1 - weight.data i j k)
    ∧ voxfacedImage opt K base template facemask voxdim
        = voxfaceComposite base (voxedImage K base voxdim)
            (indFacemask opt base template facemask) := by
  refine ⟨?_, rfl⟩
  simp only [voxfaceComposite, imageAdd, imageMul, imageSub, onesLike]

/-- Witness for C1 at concrete volumes on a shared grid. -/
theorem composite_formula_witness :
    (voxfaceComposite cFaced cOther (zerosLike cFaced)).data 0 0 0
      = cFaced.data 0 0 0 * (zerosLike cFaced).data 0 0 0
        + cOther.data 0 0 0 * (1 - (zerosLike cFaced).data 0 0 0)
    ∧ voxfacedImage cOpt cK cFaced cTemplate cFacemask 8
        = voxfaceComposite cFaced (voxedImage cK cFaced 8)
            (indFacemask cOpt cFaced cTemplate cFacemask) :=
  composite_formula cFaced cOther (zerosLike cFaced) rfl rfl 0 0 0 cOpt cK
    cTemplate cFacemask 8

/-- C2 counterexample: a mask whose value set is the singleton of 1,
warped onto a grid lying outside its extent, yields the background fill
0, which is not in the original value set of the mask. -/
theorem nnResample_value_set_counterexample :
    (nnResample exMask exTarget idTransform).data 0 0 0 = 0
    ∧ ¬ inValueSet exMask ((nnResample exMask exTarget idTransform).data 0 0 0) := by
  have h0 : (nnResample exMask exTarget idTransform).data 0 0 0 = 0 := by
    norm_num [nnResample, exMask, exTarget, idTransform, applyAffine,
      physOfIndex, contIndexOf, matVec, mat3Inv, mat3Det, mat3Id, vadd, vsub,
      vmul, vdiv, roundNearest, inBounds]
  refine ⟨h0, ?_⟩
  rw [h0]
  rintro ⟨a, b, c, -, -, -, he⟩
  simp [exMask] at he

/-- C2 amended: the warped mask lives exactly on the requested target
grid, and every voxel value is either the background fill 0 or a value
attained by the mask at some in-bounds voxel (so a binary 0/1 mask
stays binary under NearestNeighbor). -/
theorem nnResample_grid_and_value_set (mask : Volume) (target : Grid)
    (t : AffineTransform) (i j k : ℕ) :
    (nnResample mask target t).grid = target
    ∧ ((nnResample mask target t).data i j k = 0
        ∨ inValueSet mask ((nnResample mask target t).data i j k)) := by
  refine ⟨rfl, ?_⟩
  simp only [nnResample]
  split
  · next h =>
    right
    obtain ⟨h1, h2, h3, h4, h5, h6⟩ := h
    exact ⟨_, _, _, by omega, by omega, by omega, rfl⟩
  · exact Or.inl rfl

/-- C3 counterexample: a 1-voxel axis at 1 mm spacing with an 8 mm
voxelation size makes lines 143-145 compute a downsampled size of 0,
not the clamped minimum of 1 the claim states. -/
theorem dwnDim_no_clamp_counterexample :
    dwnDim 1 1 8 = 0 ∧ dwnDim 1 1 8 ≠ max 1 (npRound ((1 : ℚ) * 1 / 8)) := by
  have h : npRound ((1 : ℚ) * 1 / 8) = 0 := by
    norm_num [npRound]
  have h2 : dwnDim 1 1 8 = 0 := by
    norm_num [dwnDim, npRound]
  refine ⟨h2, ?_⟩
  rw [h2, h]
  norm_num

/-- C3 amended: the downsample stage computes the coarse size per axis
as numpy round of sourceDim * sourceSpacing / voxelSizeMm with no
minimum clamp, and invokes the resampler on that coarse grid with
B-spline interpolation. -/
theorem downsample_stage (opt : Optimizer) (K : SplineKernel)
    (faced template facemask : Volume) (voxdim : ℚ) (verbose : Bool)
    (f : List Char)
    (h : validSpacing faced.grid ∧ validSpacing template.grid) :
    Event.resampleCall (dwnDims faced.grid voxdim) InterpKind.bspline
      ∈ (runVoxface opt K faced template facemask voxdim verbose f).2
    ∧ (facedSpdwn K faced voxdim).grid.dims = dwnDims faced.grid voxdim
    ∧ dwnDims faced.grid voxdim
        = ((npRound ((faced.grid.dims.1 : ℚ) * faced.grid.spacing.1 / voxdim)).toNat,
           (npRound ((faced.grid.dims.2.1 : ℚ) * faced.grid.spacing.2.1 / voxdim)).toNat,
           (npRound ((faced.grid.dims.2.2 : ℚ) * faced.grid.spacing.2.2 / voxdim)).toNat) := by
  refine ⟨?_, rfl, rfl⟩
  cases verbose <;>
    simp [runVoxface, registrationRun, h, vlog]

/-- Witness for C3 at concrete inputs with valid spacing. -/
theorem downsample_stage_witness :
    Event.resampleCall (dwnDims cFaced.grid 8) InterpKind.bspline
      ∈ (runVoxface cOpt cK cFaced cTemplate cFacemask 8 false cFname).2
    ∧ (facedSpdwn cK cFaced 8).grid.dims = dwnDims cFaced.grid 8
    ∧ dwnDims cFaced.grid 8
        = ((npRound ((cFaced.grid.dims.1 : ℚ) * cFaced.grid.spacing.1 / 8)).toNat,
           (npRound ((cFaced.grid.dims.2.1 : ℚ) * cFaced.grid.spacing.2.1 / 8)).toNat,
           (npRound ((cFaced.grid.dims.2.2 : ℚ) * cFaced.grid.spacing.2.2 / 8)).toNat) :=
  downsample_stage cOpt cK cFaced cTemplate cFacemask 8 false cFname
    (by norm_num [validSpacing, cFaced, cGrid, cTemplate])

/-- C4 counterexample: a 1x1x1 source at 1 mm spacing with an 8 mm
voxelation size downsamples to a zero-size matrix (no clamp at lines
143-145), after which the round-trip does not restore the source
spacing, so the voxelated grid differs from the source grid. -/
theorem voxelate_grid_counterexample :
    (voxedImage cK cSmallFaced 8).grid ≠ cSmallFaced.grid := by
  intro h
  have h1 : (voxedImage cK cSmallFaced 8).grid.spacing.1 = 0 := by
    norm_num [voxedImage, resampleImage, facedSpdwn, resampleGrid, nnResample,
      dwnDims, dwnDim, npRound, cSmallFaced, cK]
  rw [h] at h1
  norm_num [cSmallFaced] at h1

/-- C4 amended: whenever every downsampled matrix size of lines 143-145
is at least 1 (and the source has nonzero dimensions), the voxelated
volume of lines 160-165 has grid geometry identical to the source;
only the intensities change. -/
theorem voxelate_grid_preserved (K : SplineKernel) (faced : Volume) (voxdim : ℚ)
    (hd : 0 < (dwnDims faced.grid voxdim).1
        ∧ 0 < (dwnDims faced.grid voxdim).2.1
        ∧ 0 < (dwnDims faced.grid voxdim).2.2)
    (hn : 0 < faced.grid.dims.1 ∧ 0 < faced.grid.dims.2.1
        ∧ 0 < faced.grid.dims.2.2) :
    (voxedImage K faced voxdim).grid = faced.grid :=
  resampleGrid_roundtrip faced.grid (dwnDims faced.grid voxdim) hd hn

/-- Witness for C4 at a concrete 4x4x4 volume with 2 mm voxelation. -/
theorem voxelate_grid_preserved_witness :
    (voxedImage cK cFaced 2).grid = cFaced.grid :=
  voxelate_grid_preserved cK cFaced 2
    (by norm_num [dwnDims, dwnDim, npRound, cFaced, cGrid])
    (by norm_num [cFaced, cGrid])

/-- C5: registering two volumes of which at least one has zero spacing
in some axis fails with InvalidInputGeometry with zero optimization
iterations run. -/
theorem registration_zero_spacing (opt : Optimizer) (fixed moving : Volume)
    (h : fixed.grid.spacing.1 = 0 ∨ fixed.grid.spacing.2.1 = 0
       ∨ fixed.grid.spacing.2.2 = 0 ∨ moving.grid.spacing.1 = 0
       ∨ moving.grid.spacing.2.1 = 0 ∨ moving.grid.spacing.2.2 = 0) :
    registrationRun opt fixed moving
      = (Except.error PipelineError.invalidInputGeometry, 0) := by
  have hn : ¬ (validSpacing fixed.grid ∧ validSpacing moving.grid) := by
    rintro ⟨⟨a1, a2, a3⟩, b1, b2, b3⟩
    rcases h with h | h | h | h | h | h <;> linarith
  unfold registrationRun
  rw [if_neg hn]

/-- Witness for C5 at a concrete volume with zero spacing in x. -/
theorem registration_zero_spacing_witness :
    registrationRun cOpt cZeroVol cTemplate
      = (Except.error PipelineError.invalidInputGeometry, 0) :=
  registration_zero_spacing cOpt cZeroVol cTemplate (Or.inl rfl)

/-- C6: compositing with an all-ones weight returns the base volume
voxel-exactly, and compositing with an all-zeros weight returns the
replacement volume voxel-exactly, on equal grids. -/
theorem composite_boundary_laws (A B : Volume) (h : B.grid = A.grid)
    (i j k : ℕ) :
    (voxfaceComposite A B (onesLike A)).grid = A.grid
    ∧ (voxfaceComposite A B (onesLike A)).data i j k = A.data i j k
    ∧ (voxfaceComposite A B (zerosLike A)).grid = B.grid
    ∧ (voxfaceComposite A B (zerosLike A)).data i j k = B.data i j k := by
  refine ⟨rfl, ?_, h.symm, ?_⟩ <;>
    simp [voxfaceComposite, imageAdd, imageMul, imageSub, onesLike, zerosLike]

/-- Witness for C6 at two concrete volumes on the same grid. -/
theorem composite_boundary_laws_witness :
    (voxfaceComposite cFaced cOther (onesLike cFaced)).grid = cFaced.grid
    ∧ (voxfaceComposite cFaced cOther (onesLike cFaced)).data 0 0 0
        = cFaced.data 0 0 0
    ∧ (voxfaceComposite cFaced cOther (zerosLike cFaced)).grid = cOther.grid
    ∧ (voxfaceComposite cFaced cOther (zerosLike cFaced)).data 0 0 0
        = cOther.data 0 0 0 :=
  composite_boundary_laws cFaced cOther rfl 0 0 0

/-- C7: a run performs exactly two writes — the backup of the original
faced image followed by the overwrite of the input path with the
defaced output — and only when the pipeline succeeded (a registration
failure writes nothing); moreover no library call (registration, warp,
resampling) occurs after the first write, so output is written last,
never as-you-go. -/
theorem write_order (opt : Optimizer) (K : SplineKernel)
    (faced template facemask : Volume) (voxdim : ℚ) (verbose : Bool)
    (f : List Char) :
    writesOf (runVoxface opt K faced template facemask voxdim verbose f).2
      = (if validSpacing faced.grid ∧ validSpacing template.grid then
          [(bakFname f, faced),
           (f, voxfacedImage opt K faced template facemask voxdim)]
        else [])
    ∧ (((runVoxface opt K faced template facemask voxdim verbose f).2.dropWhile
          fun e => ! isWriteEvent e).all fun e => ! isLibraryCall e) = true := by
  refine ⟨runVoxface_writes opt K faced template facemask voxdim verbose f, ?_⟩
  by_cases h : validSpacing faced.grid ∧ validSpacing template.grid <;>
    cases verbose <;>
    simp [runVoxface, registrationRun, h, vlog, isWriteEvent, isLibraryCall,
      List.dropWhile, List.all]

/-- C8: for a 176x256x256 subject at 1 mm isotropic spacing and an 8 mm
voxelation size, the downsample stage targets a 22x32x32 coarse grid,
and the final composite output keeps the 176x256x256 grid at 1 mm,
identical to the subject input — for every optimizer, spline kernel,
intensity data, template and mask. -/
theorem scenario_176 (opt : Optimizer) (K : SplineKernel)
    (df : ℕ → ℕ → ℕ → ℚ) (template facemask : Volume) :
    dwnDims c8Grid 8 = (22, 32, 32)
    ∧ (facedSpdwn K ⟨c8Grid, df⟩ 8).grid.dims = (22, 32, 32)
    ∧ (voxfacedImage opt K ⟨c8Grid, df⟩ template facemask 8).grid = c8Grid := by
  have h : dwnDims c8Grid 8 = (22, 32, 32) := by
    norm_num [dwnDims, dwnDim, npRound, c8Grid]
    constructor <;> rfl
  exact ⟨h, h, rfl⟩

/-- C9: two runs differing only in the verbose flag return the same
result volume and perform the same writes; verbose toggles the progress
log events only. -/
theorem verbose_no_behavioral_effect (opt : Optimizer) (K : SplineKernel)
    (faced template facemask : Volume) (voxdim : ℚ) (f : List Char) :
    (runVoxface opt K faced template facemask voxdim true f).1
      = (runVoxface opt K faced template facemask voxdim false f).1
    ∧ writesOf (runVoxface opt K faced template facemask voxdim true f).2
      = writesOf (runVoxface opt K faced template facemask voxdim false f).2 := by
  constructor
  · rw [runVoxface_result, runVoxface_result]
  · rw [runVoxface_writes, runVoxface_writes]

/-- C10: when the input path does not contain the substring `.nii.gz`,
the backup filename of line 76 equals the input filename itself, so a
successful run writes the backup of the original faced image to the
input path and then overwrites that same path with the defaced output:
replaying the writes leaves the defaced output at the input path and
every surviving file content is the defaced output — no copy of the
original faced image remains. -/
theorem backup_same_path (opt : Optimizer) (K : SplineKernel)
    (faced template facemask : Volume) (voxdim : ℚ) (verbose : Bool)
    (f p : List Char) (c : Volume)
    (h1 : containsSub niiGzPat f = false)
    (h2 : validSpacing faced.grid ∧ validSpacing template.grid) :
    bakFname f = f
    ∧ writesOf (runVoxface opt K faced template facemask voxdim verbose f).2
        = [(f, faced), (f, voxfacedImage opt K faced template facemask voxdim)]
    ∧ (applyWrites
        (writesOf (runVoxface opt K faced template facemask voxdim verbose f).2)
        p = some c
       → c = voxfacedImage opt K faced template facemask voxdim) := by
  have hb : bakFname f = f := pyReplace_of_not_contains niiGzPat facedRep f h1
  have hw : writesOf (runVoxface opt K faced template facemask voxdim verbose f).2
      = [(f, faced), (f, voxfacedImage opt K faced template facemask voxdim)] := by
    rw [runVoxface_writes, if_pos h2, hb]
  refine ⟨hb, hw, ?_⟩
  rw [hw]
  intro hc
  simp only [applyWrites, List.foldl] at hc
  by_cases hp : f = p
  · simp only [hp, if_pos rfl] at hc
    exact (Option.some.injEq _ _ ▸ hc :).symm
  · simp only [if_neg hp] at hc
    exact absurd hc (Option.noConfusion)

/-- Witness for C10 at a concrete input path without the `.nii.gz`
suffix and a concrete successful run. -/
theorem backup_same_path_witness :
    bakFname cFname = cFname
    ∧ writesOf (runVoxface cOpt cK cFaced cTemplate cFacemask 8 false cFname).2
        = [(cFname, cFaced),
           (cFname, voxfacedImage cOpt cK cFaced cTemplate cFacemask 8)]
    ∧ (applyWrites
        (writesOf (runVoxface cOpt cK cFaced cTemplate cFacemask 8 false cFname).2)
        cFname = some cFaced
       → cFaced = voxfacedImage cOpt cK cFaced cTemplate cFacemask 8) :=
  backup_same_path cOpt cK cFaced cTemplate cFacemask 8 false cFname cFname
    cFaced (by decide) (by norm_num [validSpacing, cFaced, cGrid, cTemplate])

end Voxface
